import Mathlib

/-!
Shallow embedding of the Igloo marketplace backend (src/main.py together with
src/schemas.py): the document data model, the record store, and the request
handlers that the verified claims are about.  Machine floats of the source
(prices, ratings) are modelled as rationals; the Mongo document store is
modelled as per-collection association lists kept in insertion (natural)
order, keyed by a Nat internal id whose public string form is its decimal
numeral.
-/

deriving instance DecidableEq for Except

namespace Igloo

/-- Outcome of a handler that does not return normally.  `http status detail`
is a raised fastapi HTTPException; `invalidId s` is the bson InvalidId
exception raised by the ObjectId constructor on a malformed id string, which
no handler catches, so it escapes the handler (a 500-style crash of the
request rather than a designed error response). -/
inductive PyErr where
  | http (status : Nat) (detail : String)
  | invalidId (s : String)
deriving DecidableEq

/-- schemas.User: stored user document. -/
structure UserDoc where
  role : String
  full_name : String
  email : String
  password_hash : String
  phone : Option String
  school : Option String
  avatar_url : Option String
  is_verified : Bool
deriving DecidableEq

/-- schemas.Apartment: stored apartment document.  Note the schema has no
created_at field, so inserted apartment documents never carry one. -/
structure ApartmentDoc where
  vendor_id : String
  title : String
  description : Option String
  school : String
  location : String
  price_monthly : ℚ
  type : String
  distance_km : ℚ
  amenities : List String
  photos : List String
  video_url : Option String
  is_available : Bool
  rating_avg : ℚ
  rating_count : Nat
deriving DecidableEq

/-- schemas.Review: stored review document (rating is a 1..5 integer). -/
structure ReviewDoc where
  apartment_id : String
  user_id : String
  rating : Nat
  comment : Option String
deriving DecidableEq

/-- schemas.MessageThread: stored thread document. -/
structure ThreadDoc where
  student_id : String
  vendor_id : String
  last_message : Option String
  last_time : Option Nat
deriving DecidableEq

/-- schemas.Message: stored message document.  Like Apartment, the schema has
no created_at field. -/
structure MessageDoc where
  thread_id : String
  from_user_id : String
  to_user_id : String
  body : String
deriving DecidableEq

/-- The document store: one association list per collection used by the
verified handlers, in insertion order, plus the next internal id the store
will generate.  Mongo generates distinct ObjectIds; here ids come from a
single increasing counter. -/
structure Store where
  nextId : Nat
  users : List (Nat × UserDoc)
  apartments : List (Nat × ApartmentDoc)
  reviews : List (Nat × ReviewDoc)
  threads : List (Nat × ThreadDoc)
  messages : List (Nat × MessageDoc)
deriving DecidableEq

/-- Mongo find-one by internal id: first document of the collection (natural
order) whose key matches. -/
def lookupD {α : Type} (l : List (Nat × α)) (i : Nat) : Option α :=
  (l.find? (fun p => p.1 == i)).map Prod.snd

/-- Mongo update-one by internal id: rewrite the first document whose key
matches, leave the rest untouched (matching nothing is a silent no-op). -/
def updateFirst {α : Type} (l : List (Nat × α)) (i : Nat) (f : α → α) : List (Nat × α) :=
  match l with
  | [] => []
  | p :: ps => if p.1 == i then (p.1, f p.2) :: ps else p :: updateFirst ps i f

/-- Value of a decimal digit list, most significant first, accumulator
style. -/
def digitsToNat (acc : Nat) : List Char → Nat
  | [] => acc
  | c :: cs => digitsToNat (acc * 10 + (c.toNat - 48)) cs

/-- The bson ObjectId constructor, modelled over decimal-numeral id strings:
a well-formed id string parses back to the internal Nat id, and any other
string makes the constructor raise InvalidId. -/
def parseOid (s : String) : Option Nat :=
  if s.data.isEmpty then none
  else if s.data.all Char.isDigit then some (digitsToNat 0 s.data)
  else none

/-- Python str.split on a single separator character: split the character
list at every separator occurrence, keeping empty pieces (so a trailing
separator yields a trailing empty piece, as in Python). -/
def splitChars (sep : Char) : List Char → List (List Char)
  | [] => [[]]
  | c :: cs =>
    let r := splitChars sep cs
    if c == sep then [] :: r
    else
      match r with
      | [] => [[c]]
      | h :: t => (c :: h) :: t

/-- Python str.split over strings. -/
def pySplit (s : String) (sep : Char) : List String :=
  (splitChars sep s.data).map String.mk

/-- Public string form of an internal id (str applied to the ObjectId). -/
def oidStr (n : Nat) : String := Nat.repr n

/-- main.AuthUser: the authenticated principal derived from a verified
token. -/
structure AuthUser where
  id : String
  role : String
  email : String
  full_name : String
deriving DecidableEq

/-- Claims that create_access_token signs into a token (expiry and the
signature itself belong to the opaque external token capability). -/
structure TokenClaims where
  sub : String
  role : String
  email : String
  name : String
deriving DecidableEq

/-- main.get_current_user on a token holding the given claims. -/
def authUserOfClaims (c : TokenClaims) : AuthUser :=
  { id := c.sub, role := c.role, email := c.email, full_name := c.name }

/-- main.require_role: the role-membership guard every protected handler runs
through fastapi Depends before its own body. -/
def require_role (required : List String) (u : AuthUser) : Except PyErr AuthUser :=
  if required.contains u.role then .ok u
  else .error (.http 403 "Insufficient permissions")

/-- Opaque external password capability, modelled as an injective tag: the
core only ever compares a fresh hash or verifies a password against a stored
hash. -/
def pwdHash (p : String) : String := String.append "bcrypt$" p

/-- Password verification of the opaque capability. -/
def pwdVerify (p : String) (digest : String) : Bool := digest == pwdHash p

/-- main.RegisterRequest. -/
structure RegisterRequest where
  role : String
  full_name : String
  email : String
  password : String
  phone : Option String
  school : Option String
deriving DecidableEq

/-- main.LoginRequest. -/
structure LoginRequest where
  email : String
  password : String
deriving DecidableEq

/-- main.register (POST /auth/register): reject a duplicate email with a 400
HTTPException, otherwise insert the user document built from the request and
answer with a token whose claims carry the new id, the caller-supplied role,
the email and the full name. -/
def register (st : Store) (data : RegisterRequest) : Except PyErr TokenClaims × Store :=
  match st.users.find? (fun p => p.2.email == data.email) with
  | some _ => (.error (.http 400 "Email already registered"), st)
  | none =>
    let u : UserDoc :=
      { role := data.role, full_name := data.full_name, email := data.email
      , password_hash := pwdHash data.password, phone := data.phone
      , school := data.school, avatar_url := none, is_verified := false }
    let uid := st.nextId
    (.ok { sub := oidStr uid, role := u.role, email := u.email, name := u.full_name },
     { st with users := st.users ++ [(uid, u)], nextId := uid + 1 })

/-- main.login (POST /auth/login): look the user up by email, verify the
password against the stored hash, answer with a fresh token.  (The source
defaults a missing full_name to another string; stored documents always have
the field, so the default is dead.) -/
def login (st : Store) (data : LoginRequest) : Except PyErr TokenClaims :=
  match st.users.find? (fun p => p.2.email == data.email) with
  | none => .error (.http 401 "Invalid credentials")
  | some p =>
    if pwdVerify data.password p.2.password_hash then
      .ok { sub := oidStr p.1, role := p.2.role, email := p.2.email, name := p.2.full_name }
    else .error (.http 401 "Invalid credentials")

/-- main.get_apartment (GET /apartments/id): the handler first runs the
ObjectId constructor on the raw path string (raising InvalidId on a malformed
string), then looks the document up, answering 404 when absent. -/
def get_apartment (st : Store) (aptId : String) : Except PyErr (String × ApartmentDoc) :=
  match parseOid aptId with
  | none => .error (.invalidId aptId)
  | some n =>
    match lookupD st.apartments n with
    | none => .error (.http 404 "Not found")
    | some d => .ok (oidStr n, d)

/-- Query parameters of main.list_apartments, each optional. -/
structure ListingFilters where
  school : Option String
  q : Option String
  min_price : Option ℚ
  max_price : Option ℚ
  amenities : Option String
deriving DecidableEq

/-- The Mongo query dict main.list_apartments builds: an optional equality
term on school, an optional or-of-regex term holding the raw q string, an
optional inclusive lower and upper bound on price_monthly, and an optional
all-of term on amenities. -/
structure MongoQuery where
  schoolEq : Option String
  orRegexQ : Option String
  priceGte : Option ℚ
  priceLte : Option ℚ
  amenitiesAll : Option (List String)
deriving DecidableEq

/-- Query construction of main.list_apartments, lines 188-205.  Python
truthiness governs the string-valued parameters (`if school:` and friends),
so an empty string contributes no term, while the price bounds are guarded by
an explicit is-not-None test. -/
def buildQuery (f : ListingFilters) : MongoQuery :=
  { schoolEq := match f.school with
      | some s => if s.data.isEmpty then none else some s
      | none => none
  , orRegexQ := match f.q with
      | some q => if q.data.isEmpty then none else some q
      | none => none
  , priceGte := f.min_price
  , priceLte := f.max_price
  , amenitiesAll := match f.amenities with
      | some s => if s.data.isEmpty then none else some (pySplit s ',')
      | none => none }

/-- Whether the character list starts with the pattern. -/
def charsStartWith : List Char → List Char → Bool
  | _, [] => true
  | [], _ :: _ => false
  | h :: hs, p :: ps => h == p && charsStartWith hs ps

/-- Whether the pattern occurs as a contiguous run of the character list. -/
def charsContain : List Char → List Char → Bool
  | [], pat => pat.isEmpty
  | h :: hs, pat => charsStartWith (h :: hs) pat || charsContain hs pat

/-- Case-insensitive substring containment of pat inside s. -/
def ciSubstr (pat s : String) : Bool :=
  charsContain (s.data.map Char.toLower) (pat.data.map Char.toLower)

/-- Modelled from the spec: the external document store's case-insensitive
regex filter, applied by the code to the raw user string, is the store-side
capability the spec describes as case-insensitive substring match (section
4.4); it is modelled as exactly that. -/
def regexI (pat s : String) : Bool := ciSubstr pat s

/-- Store-side evaluation of the built query against one apartment document:
every present term must hold; the or-of-regex term holds when any of title,
location, description matches, a regex on the absent description field
matching nothing. -/
def evalQuery (qy : MongoQuery) (a : ApartmentDoc) : Bool :=
  (match qy.schoolEq with
    | none => true
    | some s => a.school == s)
  && (match qy.orRegexQ with
    | none => true
    | some q =>
      regexI q a.title || regexI q a.location ||
        (match a.description with
          | some d => regexI q d
          | none => false))
  && (match qy.priceGte with
    | none => true
    | some m => decide (m ≤ a.price_monthly))
  && (match qy.priceLte with
    | none => true
    | some m => decide (a.price_monthly ≤ m))
  && (match qy.amenitiesAll with
    | none => true
    | some l => l.all (fun x => a.amenities.contains x))

/-- Mongo sort on the created_at field: documents inserted by this backend
never carry a created_at field (no schema has one and no handler adds one),
and the store compares missing sort keys as equal, so the sort leaves the
natural insertion order of the collection unchanged. -/
def sortByMissingField {α : Type} (l : List α) : List α := l

/-- main.list_apartments (GET /apartments): filter the apartment collection
with the built query, sort by the never-present created_at field descending,
and expose each internal id as its public string. -/
def list_apartments (st : Store) (f : ListingFilters) : List (String × ApartmentDoc) :=
  sortByMissingField
    ((st.apartments.filter (fun p => evalQuery (buildQuery f) p.2)).map
      (fun p => (oidStr p.1, p.2)))

/-- Sum of the ratings of a list of reviews, as a rational (the store's
average runs over the numeric rating field). -/
def ratingSum (revs : List ReviewDoc) : ℚ :=
  (revs.map (fun r => (r.rating : ℚ))).sum

/-- The review documents of the store whose apartment_id equals the given
public apartment id string (the match stage of the aggregation in
main.add_review). -/
def reviewsFor (st : Store) (aptId : String) : List ReviewDoc :=
  (st.reviews.filter (fun p => p.2.apartment_id == aptId)).map Prod.snd

/-- main.add_review (POST /apartments/id/reviews), guarded by
require_role on user and vendor: reject a payload whose apartment_id differs
from the path id with a 400 HTTPException; otherwise overwrite the payload's
user_id with the principal's id and insert the review; then aggregate
average and count of all reviews for that apartment id, and when the
aggregate is non-empty (always, right after the insert) run update-one keyed
by ObjectId of the raw path string — the ObjectId constructor raising
InvalidId there on a malformed path id, after the review insert already
happened. -/
def add_review (st : Store) (aptId : String) (payload : ReviewDoc) (u : AuthUser) :
    Except PyErr Unit × Store :=
  match require_role ["user", "vendor"] u with
  | .error e => (.error e, st)
  | .ok _ =>
    if payload.apartment_id != aptId then
      (.error (.http 400 "Mismatched apartment id"), st)
    else
      let entry : ReviewDoc := { payload with user_id := u.id }
      let st1 : Store :=
        { st with reviews := st.reviews ++ [(st.nextId, entry)], nextId := st.nextId + 1 }
      let revs := reviewsFor st1 aptId
      if revs.isEmpty then (.ok (), st1)
      else
        match parseOid aptId with
        | none => (.error (.invalidId aptId), st1)
        | some n =>
          let apts := updateFirst st1.apartments n
            (fun a => { a with rating_avg := ratingSum revs / (revs.length : ℚ)
                             , rating_count := revs.length })
          (.ok (), { st1 with apartments := apts })

/-- main.create_thread (POST /threads), guarded by require_role on user
alone: find-one on the (student, vendor) pair; when a thread exists answer
its public id without touching the store, otherwise insert a fresh thread
document and answer the new id. -/
def create_thread (st : Store) (vendorId : String) (u : AuthUser) :
    Except PyErr String × Store :=
  match require_role ["user"] u with
  | .error e => (.error e, st)
  | .ok _ =>
    match st.threads.find? (fun p => p.2.student_id == u.id && p.2.vendor_id == vendorId) with
    | some p => (.ok (oidStr p.1), st)
    | none =>
      (.ok (oidStr st.nextId),
       { st with
          threads := st.threads ++
            [(st.nextId, { student_id := u.id, vendor_id := vendorId
                         , last_message := none, last_time := none })]
          nextId := st.nextId + 1 })

/-- How many threads of the store belong to the (student, vendor) pair. -/
def pairCount (st : Store) (sid vid : String) : Nat :=
  (st.threads.filter (fun p => p.2.student_id == sid && p.2.vendor_id == vid)).length

/-- main.SendMessage request body. -/
structure SendMessagePayload where
  thread_id : String
  body : String
deriving DecidableEq

/-- main.send_message (POST /messages), guarded by require_role on user and
vendor: parse the thread id (InvalidId escaping on a malformed string), 404
when the thread is absent, 403 when a user-role principal is not the
thread's student or a vendor-role principal is not the thread's vendor;
then insert the message addressed to the other participant and overwrite the
thread's last_message and last_time cache. -/
def send_message (st : Store) (payload : SendMessagePayload) (u : AuthUser) (now : Nat) :
    Except PyErr Unit × Store :=
  match require_role ["user", "vendor"] u with
  | .error e => (.error e, st)
  | .ok _ =>
    match parseOid payload.thread_id with
    | none => (.error (.invalidId payload.thread_id), st)
    | some tid =>
      match lookupD st.threads tid with
      | none => (.error (.http 404 "Thread not found"), st)
      | some t =>
        if u.role == "user" && t.student_id != u.id then
          (.error (.http 403 "Not participant"), st)
        else if u.role == "vendor" && t.vendor_id != u.id then
          (.error (.http 403 "Not participant"), st)
        else
          let toId := if u.role == "user" then t.vendor_id else t.student_id
          let msg : MessageDoc :=
            { thread_id := payload.thread_id, from_user_id := u.id
            , to_user_id := toId, body := payload.body }
          let st1 : Store :=
            { st with messages := st.messages ++ [(st.nextId, msg)], nextId := st.nextId + 1 }
          let thrs := updateFirst st1.threads tid
            (fun th => { th with last_message := some payload.body, last_time := some now })
          (.ok (), { st1 with threads := thrs })

/-- main.thread_messages (GET /messages/thread_id), guarded by require_role
on user and vendor: same parse, 404 and participant checks as send_message,
then the thread's messages filtered by public thread id, sorted by the
never-present created_at field ascending (natural order). -/
def thread_messages (st : Store) (threadId : String) (u : AuthUser) :
    Except PyErr (List (String × MessageDoc)) :=
  match require_role ["user", "vendor"] u with
  | .error e => .error e
  | .ok _ =>
    match parseOid threadId with
    | none => .error (.invalidId threadId)
    | some tid =>
      match lookupD st.threads tid with
      | none => .error (.http 404 "Thread not found")
      | some t =>
        if u.role == "user" && t.student_id != u.id then
          .error (.http 403 "Not participant")
        else if u.role == "vendor" && t.vendor_id != u.id then
          .error (.http 403 "Not participant")
        else
          .ok (sortByMissingField
            ((st.messages.filter (fun p => p.2.thread_id == threadId)).map
              (fun p => (oidStr p.1, p.2))))

/-- Whether a raised error is a Forbidden (403) response, whichever its
detail string. -/
def isForbiddenE : PyErr → Bool
  | .http 403 _ => true
  | _ => false

/-- Whether a handler outcome is a Forbidden failure. -/
def isForbiddenRes {α : Type} : Except PyErr α → Bool
  | .error e => isForbiddenE e
  | .ok _ => false

/-- Spec-side listing predicate, written from the words of the spec (section
4.4): each present filter imposes its term — exact school equality,
case-insensitive free-text substring over any of title, location,
description, inclusive price bounds, containment of the comma-separated
amenity set — all present terms combined with logical AND, an absent filter
imposing no constraint. -/
def specMatches (f : ListingFilters) (a : ApartmentDoc) : Bool :=
  (match f.school with
    | none => true
    | some s => a.school == s)
  && (match f.q with
    | none => true
    | some q =>
      ciSubstr q a.title || ciSubstr q a.location ||
        (match a.description with
          | some d => ciSubstr q d
          | none => false))
  && (match f.min_price with
    | none => true
    | some m => decide (m ≤ a.price_monthly))
  && (match f.max_price with
    | none => true
    | some m => decide (a.price_monthly ≤ m))
  && (match f.amenities with
    | none => true
    | some s => (pySplit s ',').all (fun x => a.amenities.contains x))

/-- The normalization the code's truthiness tests actually apply to the
filters: a string-valued filter whose value is the empty string is treated
as absent. -/
def normFilters (f : ListingFilters) : ListingFilters :=
  { school := match f.school with
      | some s => if s.data.isEmpty then none else some s
      | none => none
  , q := match f.q with
      | some s => if s.data.isEmpty then none else some s
      | none => none
  , min_price := f.min_price
  , max_price := f.max_price
  , amenities := match f.amenities with
      | some s => if s.data.isEmpty then none else some s
      | none => none }

/-- A store with nothing in it. -/
def emptyStore : Store :=
  { nextId := 0, users := [], apartments := [], reviews := [], threads := [], messages := [] }

/-- A concrete apartment document used by the concrete-input theorems. -/
def mkApt (title : String) (school : String) (price : ℚ) : ApartmentDoc :=
  { vendor_id := "v1", title := title, description := none, school := school
  , location := "Yaba", price_monthly := price, type := "studio", distance_km := 1
  , amenities := ["wifi"], photos := [], video_url := none, is_available := true
  , rating_avg := 0, rating_count := 0 }

/-- Filters with every parameter absent. -/
def noFilters : ListingFilters :=
  { school := none, q := none, min_price := none, max_price := none, amenities := none }

/-- Filters whose school parameter is present but holds the empty string
(the request GET /apartments?school= produces exactly this). -/
def emptySchoolFilters : ListingFilters :=
  { school := some "", q := none, min_price := none, max_price := none, amenities := none }

/-- Store holding one thread between student stu1 and vendor ven1 under
internal id 7. -/
def stThread : Store :=
  { emptyStore with
    nextId := 8,
    threads := [(7, { student_id := "stu1", vendor_id := "ven1",
                      last_message := none, last_time := none })] }

/-- A principal of role user who is neither participant of the stThread
thread. -/
def intruder : AuthUser :=
  { id := "intruder", role := "user", email := "i@example.com", full_name := "Intruder" }

/-- Store holding one apartment under internal id 0 and one stored review of
rating 5 for it. -/
def stOneReview : Store :=
  { emptyStore with
    nextId := 1,
    apartments := [(0, mkApt "flat" "Unilag" 1000)],
    reviews := [(1, { apartment_id := "0", user_id := "u9", rating := 5, comment := none })] }

/-- Store holding two apartments, the one under internal id 0 inserted
(created) before the one under internal id 1. -/
def stTwoApts : Store :=
  { emptyStore with
    nextId := 2,
    apartments := [(0, mkApt "older" "Unilag" 500), (1, mkApt "newer" "Unilag" 1500)] }

/-- Store holding one registered user whose email is taken@example.com. -/
def stTakenEmail : Store :=
  { emptyStore with
    nextId := 1,
    users := [(0, { role := "user", full_name := "First", email := "taken@example.com",
                    password_hash := pwdHash "first-pw", phone := none, school := none,
                    avatar_url := none, is_verified := false })] }

/-- A registration request that claims the admin role on a fresh email. -/
def adminReg : RegisterRequest :=
  { role := "admin", full_name := "Mallory", email := "m@example.com"
  , password := "pw", phone := none, school := none }

/-- A registration request reusing the already-taken email. -/
def dupReg : RegisterRequest :=
  { role := "user", full_name := "Second", email := "taken@example.com"
  , password := "other-pw", phone := none, school := none }

/-- A registration request with an email no stored user has. -/
def freshReg : RegisterRequest :=
  { role := "user", full_name := "Fresh", email := "fresh@example.com"
  , password := "fresh-pw", phone := none, school := none }

/-- The user-role participant of the stThread thread. -/
def student1 : AuthUser :=
  { id := "stu1", role := "user", email := "s@example.com", full_name := "Stu" }

/-- A review payload of rating 3 for apartment 0 whose user_id names someone
else. -/
def reviewOf3 : ReviewDoc :=
  { apartment_id := "0", user_id := "someone-else", rating := 3, comment := none }

/-- A review payload aimed at the malformed apartment id zzz. -/
def reviewPayloadZ : ReviewDoc :=
  { apartment_id := "zzz", user_id := "someone-else", rating := 5, comment := none }

/-- Looking a key up after update-one on that key sees the rewritten
document. -/
theorem lookupD_updateFirst {α : Type} (l : List (Nat × α)) (i : Nat) (f : α → α) :
    lookupD (updateFirst l i f) i = (lookupD l i).map f := by
  induction l with
  | nil => rfl
  | cons p ps ih =>
    by_cases h : (p.1 == i) = true
    · simp [updateFirst, lookupD, List.find?_cons, h]
    · simp only [Bool.not_eq_true] at h
      simp [updateFirst, lookupD, List.find?_cons, h] at ih ⊢
      exact ih

/-- C3 (code bug): lookup-by-id on a malformed id string does not produce the
designed NotFound or BadRequest failure — get_apartment runs the ObjectId
constructor on the raw path string, which raises the InvalidId exception no
handler catches, so the request crashes instead of answering 404/400. -/
theorem claim3_get_apartment_malformed_id_raises :
    get_apartment emptyStore "zz-not-an-id" = .error (.invalidId "zz-not-an-id")
      ∧ ∀ status detail, PyErr.invalidId "zz-not-an-id" ≠ PyErr.http status detail :=
  ⟨by decide, fun _ _ h => PyErr.noConfusion h⟩

/-- C8 (code bug): failure atomicity is violated by add_review — on a
malformed apartment id the handler first inserts the review and only then
crashes on the ObjectId constructor inside the aggregate update, so the
failing call leaves a new review in the store. -/
theorem claim8_add_review_fails_after_insert :
    (add_review emptyStore "zzz" reviewPayloadZ intruder).1 = .error (.invalidId "zzz")
      ∧ (add_review emptyStore "zzz" reviewPayloadZ intruder).2.reviews
          = [(0, { apartment_id := "zzz", user_id := "intruder", rating := 5, comment := none })]
      ∧ emptyStore.reviews = [] := by
  refine ⟨by decide, by decide, rfl⟩

/-- C9 (code bug): no inserted apartment or message document ever carries a
created_at field, so the created_at sorts of list_apartments and
thread_messages compare only missing keys and return plain insertion order:
with apartment 0 created before apartment 1, the listing answers the older
apartment first instead of newest-first. -/
theorem claim9_listing_not_newest_first :
    (list_apartments stTwoApts noFilters).map Prod.fst = [oidStr 0, oidStr 1]
      ∧ (list_apartments stTwoApts noFilters).map Prod.fst ≠ [oidStr 1, oidStr 0] := by
  refine ⟨by decide, by decide⟩

/-- C5 counterexample: with the school filter present but holding the empty
string (the request GET /apartments?school=), the built query drops the
school term entirely — the store matches an apartment of a different school
even though the claimed conjunction of present-filter terms rejects it. -/
theorem claim5_empty_school_filter_dropped :
    evalQuery (buildQuery emptySchoolFilters) (mkApt "older" "Unilag" 500) = true
      ∧ (list_apartments stTwoApts emptySchoolFilters).map Prod.fst = [oidStr 0, oidStr 1]
      ∧ specMatches emptySchoolFilters (mkApt "older" "Unilag" 500) = false := by
  refine ⟨by decide, by decide, by decide⟩

/-- Pointwise agreement of the built-and-evaluated listing query with the
spec predicate over the truthiness-normalized filters. -/
theorem evalQuery_buildQuery_eq_specMatches (f : ListingFilters) (a : ApartmentDoc) :
    evalQuery (buildQuery f) a = specMatches (normFilters f) a := by
  rcases f with ⟨os, oq, omin, omax, oam⟩
  cases os <;> cases oq <;> cases oam <;>
    simp only [buildQuery, evalQuery, specMatches, normFilters, regexI] <;>
    split_ifs <;> rfl

/-- C5 (amended): for every filter combination, list_apartments returns
exactly the apartments satisfying the spec's top-level AND of present-filter
terms — exact school equality, case-insensitive free-text substring over any
of title, location, description, inclusive price bounds, full containment of
the comma-split amenity set — once a present school, free-text or amenities
filter holding the empty string is treated as absent. -/
theorem claim5_query_is_spec_conjunction (st : Store) (f : ListingFilters) :
    list_apartments st f
      = (st.apartments.filter (fun p => specMatches (normFilters f) p.2)).map
          (fun p => (oidStr p.1, p.2)) := by
  unfold list_apartments sortByMissingField
  congr 1
  apply List.filter_congr
  intro p _
  exact evalQuery_buildQuery_eq_specMatches f p.2

/-- C2: register stores and signs the caller-supplied role string without
validating it, so with a fresh email any role — admin included — ends up in
the stored user record and in the token claims, and an admin-role token then
passes the admin-only require_role guard. -/
theorem claim2_register_role_unvalidated (st : Store) (data : RegisterRequest)
    (hfresh : st.users.find? (fun p => p.2.email == data.email) = none) :
    ∃ tok : TokenClaims,
      (register st data).1 = .ok tok
      ∧ tok.role = data.role
      ∧ (register st data).2.users
          = st.users ++
            [(st.nextId,
              { role := data.role, full_name := data.full_name, email := data.email
              , password_hash := pwdHash data.password, phone := data.phone
              , school := data.school, avatar_url := none, is_verified := false })]
      ∧ (data.role = "admin" →
          require_role ["admin"] (authUserOfClaims tok) = .ok (authUserOfClaims tok)) := by
  refine ⟨{ sub := oidStr st.nextId, role := data.role, email := data.email
          , name := data.full_name }, ?_, rfl, ?_, ?_⟩
  · simp [register, hfresh]
  · simp [register, hfresh]
  · intro h
    simp [require_role, authUserOfClaims, h]

/-- Witness for C2 at a concrete input: the empty store is fresh for the
admin-role registration, which then succeeds as the theorem states. -/
theorem claim2_register_role_unvalidated_witness :
    emptyStore.users.find? (fun p => p.2.email == adminReg.email) = none
      ∧ ∃ tok : TokenClaims,
          (register emptyStore adminReg).1 = .ok tok
          ∧ tok.role = adminReg.role
          ∧ (register emptyStore adminReg).2.users
              = emptyStore.users ++
                [(emptyStore.nextId,
                  { role := adminReg.role, full_name := adminReg.full_name
                  , email := adminReg.email, password_hash := pwdHash adminReg.password
                  , phone := adminReg.phone, school := adminReg.school
                  , avatar_url := none, is_verified := false })]
          ∧ (adminReg.role = "admin" →
              require_role ["admin"] (authUserOfClaims tok) = .ok (authUserOfClaims tok)) :=
  ⟨by decide, claim2_register_role_unvalidated emptyStore adminReg (by decide)⟩

/-- C4: registering an email an existing user already holds fails with the
duplicate-unique-entity (Conflict) failure — surfaced by the code as the 400
duplicate-email HTTPException — and inserts nothing; registering a fresh
email succeeds and logging in with the very same credentials then
succeeds. -/
theorem claim4_register_conflict_then_login (st1 st2 : Store) (d1 d2 : RegisterRequest)
    (pr : Nat × UserDoc)
    (hdup : st1.users.find? (fun p => p.2.email == d1.email) = some pr)
    (hfresh : st2.users.find? (fun p => p.2.email == d2.email) = none) :
    register st1 d1 = (.error (.http 400 "Email already registered"), st1)
      ∧ (register st2 d2).1
          = .ok { sub := oidStr st2.nextId, role := d2.role, email := d2.email
                , name := d2.full_name }
      ∧ login (register st2 d2).2 { email := d2.email, password := d2.password }
          = .ok { sub := oidStr st2.nextId, role := d2.role, email := d2.email
                , name := d2.full_name } := by
  refine ⟨by simp [register, hdup], by simp [register, hfresh], ?_⟩
  simp [register, hfresh, login, pwdVerify]

/-- Witness for C4 at concrete inputs: the store holding taken@example.com
rejects a second registration of that email unchanged, and a fresh
registration on the empty store can immediately log in. -/
theorem claim4_register_conflict_then_login_witness :
    stTakenEmail.users.find? (fun p => p.2.email == dupReg.email)
        = some (0, { role := "user", full_name := "First", email := "taken@example.com"
                   , password_hash := pwdHash "first-pw", phone := none, school := none
                   , avatar_url := none, is_verified := false })
      ∧ emptyStore.users.find? (fun p => p.2.email == freshReg.email) = none
      ∧ (register stTakenEmail dupReg
            = (.error (.http 400 "Email already registered"), stTakenEmail)
          ∧ (register emptyStore freshReg).1
              = .ok { sub := oidStr emptyStore.nextId, role := freshReg.role
                    , email := freshReg.email, name := freshReg.full_name }
          ∧ login (register emptyStore freshReg).2
                { email := freshReg.email, password := freshReg.password }
              = .ok { sub := oidStr emptyStore.nextId, role := freshReg.role
                    , email := freshReg.email, name := freshReg.full_name }) :=
  ⟨by decide, by decide,
    claim4_register_conflict_then_login stTakenEmail emptyStore dupReg freshReg
      (0, { role := "user", full_name := "First", email := "taken@example.com"
          , password_hash := pwdHash "first-pw", phone := none, school := none
          , avatar_url := none, is_verified := false })
      (by decide) (by decide)⟩

/-- C10: whatever user_id the review payload carries, add_review inserts the
review with the authenticated principal's id in its place (the payload field
is overwritten before the insert), in every role-authorized call that passes
the id-match check — the crash path after the insert included. -/
theorem claim10_review_author_is_principal (st : Store) (aptId : String)
    (payload : ReviewDoc) (u : AuthUser)
    (hrole : (["user", "vendor"].contains u.role) = true)
    (hid : payload.apartment_id = aptId) :
    (add_review st aptId payload u).2.reviews
      = st.reviews ++ [(st.nextId, { payload with user_id := u.id })] := by
  simp only [add_review, require_role, hrole, if_true, hid, bne_self_eq_false,
    Bool.false_eq_true, if_false]
  split
  · rfl
  · split <;> rfl

/-- Witness for C10 at a concrete input: the inserted review for apartment 0
carries the principal's id stu1, not the someone-else id the payload
supplied. -/
theorem claim10_review_author_is_principal_witness :
    (["user", "vendor"].contains student1.role) = true
      ∧ reviewOf3.apartment_id = "0"
      ∧ (add_review stOneReview "0" reviewOf3 student1).2.reviews
          = stOneReview.reviews
            ++ [(stOneReview.nextId, { reviewOf3 with user_id := student1.id })] :=
  ⟨by decide, by decide,
    claim10_review_author_is_principal stOneReview "0" reviewOf3 student1
      (by decide) (by decide)⟩

/-- C7: thread creation is idempotent — calling create_thread twice for the
same (student, vendor) pair answers the same thread id both times and the
second call leaves the store exactly as the first left it; when a thread for
the pair already exists the call short-circuits to its id without touching
the store; and the at-most-one-thread-per-pair invariant is preserved. -/
theorem claim7_create_thread_idempotent (st : Store) (vid : String) (u : AuthUser)
    (hrole : u.role = "user") :
    (create_thread (create_thread st vid u).2 vid u).1 = (create_thread st vid u).1
      ∧ (create_thread (create_thread st vid u).2 vid u).2 = (create_thread st vid u).2
      ∧ (∀ pr, st.threads.find? (fun q => q.2.student_id == u.id && q.2.vendor_id == vid)
            = some pr → create_thread st vid u = (.ok (oidStr pr.1), st))
      ∧ (pairCount st u.id vid ≤ 1 → pairCount (create_thread st vid u).2 u.id vid ≤ 1) := by
  have hreq : require_role ["user"] u = .ok u := by
    simp [require_role, hrole]
  cases hfind : st.threads.find? (fun q => q.2.student_id == u.id && q.2.vendor_id == vid) with
  | some pr =>
    refine ⟨?_, ?_, ?_, ?_⟩ <;>
      simp [create_thread, hreq, hfind, pairCount]
  | none =>
    have hempty : st.threads.filter
        (fun q => q.2.student_id == u.id && q.2.vendor_id == vid) = [] := by
      rw [List.filter_eq_nil_iff]
      intro a ha
      have := List.find?_eq_none.mp hfind a ha
      simpa using this
    refine ⟨?_, ?_, ?_, ?_⟩
    · simp [create_thread, hreq, hfind, List.find?_append]
    · simp [create_thread, hreq, hfind, List.find?_append]
    · intro pr h
      exact Option.noConfusion h
    · intro _
      simp [create_thread, hreq, hfind, pairCount, List.filter_append, hempty]

/-- Witness for C7 at a concrete input: on the empty store, student stu1
requesting a thread with vendor ven1 twice gets id 0 both times, with the
idempotency and pair-count conclusions instantiated. -/
theorem claim7_create_thread_idempotent_witness :
    student1.role = "user"
      ∧ ((create_thread (create_thread emptyStore "ven1" student1).2 "ven1" student1).1
            = (create_thread emptyStore "ven1" student1).1
          ∧ (create_thread (create_thread emptyStore "ven1" student1).2 "ven1" student1).2
            = (create_thread emptyStore "ven1" student1).2
          ∧ (∀ pr, emptyStore.threads.find?
                (fun q => q.2.student_id == student1.id && q.2.vendor_id == "ven1")
                  = some pr →
                create_thread emptyStore "ven1" student1 = (.ok (oidStr pr.1), emptyStore))
          ∧ (pairCount emptyStore student1.id "ven1" ≤ 1 →
              pairCount (create_thread emptyStore "ven1" student1).2 student1.id "ven1" ≤ 1)) :=
  ⟨by decide, claim7_create_thread_idempotent emptyStore "ven1" student1 (by decide)⟩

/-- C6: after every successful add_review call on an existing apartment with
a well-formed id, the apartment record holds rating_avg equal to the mean
and rating_count equal to the count of all reviews stored for that
apartment (the freshly inserted one included). -/
theorem claim6_rating_aggregate (st : Store) (u : AuthUser) (n : Nat) (apt : ApartmentDoc)
    (payload : ReviewDoc)
    (hrole : (["user", "vendor"].contains u.role) = true)
    (hid : payload.apartment_id = oidStr n)
    (hparse : parseOid (oidStr n) = some n)
    (hapt : lookupD st.apartments n = some apt) :
    (add_review st (oidStr n) payload u).1 = .ok ()
      ∧ ∃ apt', lookupD (add_review st (oidStr n) payload u).2.apartments n = some apt'
          ∧ apt'.rating_avg
              = ratingSum (reviewsFor (add_review st (oidStr n) payload u).2 (oidStr n))
                / ((reviewsFor (add_review st (oidStr n) payload u).2 (oidStr n)).length : ℚ)
          ∧ apt'.rating_count
              = (reviewsFor (add_review st (oidStr n) payload u).2 (oidStr n)).length := by
  have hne : (reviewsFor
      { st with reviews := st.reviews ++ [(st.nextId, { payload with user_id := u.id })]
              , nextId := st.nextId + 1 } (oidStr n)).isEmpty = false := by
    simp [reviewsFor, List.filter_append, List.filter_cons, hid]
  rw [hid] at hne
  simp only [add_review, require_role, hrole, if_true, hid, bne_self_eq_false,
    Bool.false_eq_true, if_false, hparse, hne]
  refine ⟨trivial, ?_⟩
  rw [lookupD_updateFirst, hapt]
  refine ⟨_, rfl, ?_, ?_⟩ <;> rfl

/-- Witness for C6 at a concrete input: apartment 0 already holds one review
of rating 5; student stu1 adds a rating-3 review, and the aggregate
conclusion is instantiated (here the two stored reviews have mean 4 and
count 2). -/
theorem claim6_rating_aggregate_witness :
    (["user", "vendor"].contains student1.role) = true
      ∧ reviewOf3.apartment_id = oidStr 0
      ∧ parseOid (oidStr 0) = some 0
      ∧ lookupD stOneReview.apartments 0 = some (mkApt "flat" "Unilag" 1000)
      ∧ ((add_review stOneReview (oidStr 0) reviewOf3 student1).1 = .ok ()
          ∧ ∃ apt',
              lookupD (add_review stOneReview (oidStr 0) reviewOf3 student1).2.apartments 0
                  = some apt'
                ∧ apt'.rating_avg
                    = ratingSum
                        (reviewsFor (add_review stOneReview (oidStr 0) reviewOf3 student1).2
                          (oidStr 0))
                      / ((reviewsFor (add_review stOneReview (oidStr 0) reviewOf3 student1).2
                          (oidStr 0)).length : ℚ)
                ∧ apt'.rating_count
                    = (reviewsFor (add_review stOneReview (oidStr 0) reviewOf3 student1).2
                        (oidStr 0)).length) :=
  ⟨by decide, by decide, by decide, by decide,
    claim6_rating_aggregate stOneReview student1 0 (mkApt "flat" "Unilag" 1000) reviewOf3
      (by decide) (by decide) (by decide) (by decide)⟩

/-- C1: on an existing thread, postMessage (send_message) and readMessages
(thread_messages) fail with Forbidden exactly when the principal is not the
matching participant — a user-role principal other than the thread's
student, a vendor-role principal other than the thread's vendor, and every
other role (rejected by the role guard) all get Forbidden, so a third
principal who is neither participant always does. -/
theorem claim1_messaging_participant_auth (st : Store) (u : AuthUser) (tidStr : String)
    (tid : Nat) (t : ThreadDoc) (body : String) (now : Nat)
    (hp : parseOid tidStr = some tid)
    (ht : lookupD st.threads tid = some t) :
    (isForbiddenRes (send_message st { thread_id := tidStr, body := body } u now).1 = true
        ↔ ¬ ((u.role = "user" ∧ u.id = t.student_id)
              ∨ (u.role = "vendor" ∧ u.id = t.vendor_id)))
      ∧ (isForbiddenRes (thread_messages st tidStr u) = true
        ↔ ¬ ((u.role = "user" ∧ u.id = t.student_id)
              ∨ (u.role = "vendor" ∧ u.id = t.vendor_id))) := by
  by_cases hu : u.role = "user"
  · by_cases hs : t.student_id = u.id
    · constructor <;>
        simp [send_message, thread_messages, require_role, hp, ht, hu, hs,
          isForbiddenRes, isForbiddenE]
    · have hs' : ¬(u.id = t.student_id) := fun h => hs h.symm
      constructor <;>
        simp [send_message, thread_messages, require_role, hp, ht, hu, hs, hs',
          isForbiddenRes, isForbiddenE]
  · by_cases hv : u.role = "vendor"
    · by_cases hvv : t.vendor_id = u.id
      · constructor <;>
          simp [send_message, thread_messages, require_role, hp, ht, hu, hv, hvv,
            isForbiddenRes, isForbiddenE]
      · have hvv' : ¬(u.id = t.vendor_id) := fun h => hvv h.symm
        constructor <;>
          simp [send_message, thread_messages, require_role, hp, ht, hu, hv, hvv, hvv',
            isForbiddenRes, isForbiddenE]
    · constructor <;>
        simp [send_message, thread_messages, require_role, hp, ht, hu, hv,
          isForbiddenRes, isForbiddenE]

/-- Witness for C1 at a concrete input: a third user-role principal, neither
stu1 nor ven1, posting to or reading thread 7 is Forbidden by both
handlers. -/
theorem claim1_messaging_participant_auth_witness :
    parseOid "7" = some 7
      ∧ lookupD stThread.threads 7
          = some { student_id := "stu1", vendor_id := "ven1"
                 , last_message := none, last_time := none }
      ∧ ((isForbiddenRes
            (send_message stThread { thread_id := "7", body := "hi" } intruder 0).1 = true
          ↔ ¬ ((intruder.role = "user" ∧ intruder.id = "stu1")
                ∨ (intruder.role = "vendor" ∧ intruder.id = "ven1")))
        ∧ (isForbiddenRes (thread_messages stThread "7" intruder) = true
          ↔ ¬ ((intruder.role = "user" ∧ intruder.id = "stu1")
                ∨ (intruder.role = "vendor" ∧ intruder.id = "ven1")))) :=
  ⟨by decide, by decide,
    claim1_messaging_participant_auth stThread intruder "7" 7
      { student_id := "stu1", vendor_id := "ven1", last_message := none, last_time := none }
      "hi" 0 (by decide) (by decide)⟩

end Igloo
